import Mathlib

/-!
Verification of the episode-segmentation core and helper routines of the
Kun-Dao airfield weather & runway recording system (V4).

The Python sources embedded here:
  * `rain_analysis_V4.py` — `is_runway_dry_state`, `analyze_rain_events`,
    `split_wet_runway_episodes`;
  * `metar_parser_V4.py` — `parse_metar` (the fields relevant to the
    rain-classification and cloud-height claims);
  * `app_V4.py` — `parse_time_numeric` and the `to_vn` local-time projection.

Timestamps are modelled as natural numbers (minutes); records are
timestamp/label pairs with the original Chinese string labels.
-/

namespace WeatherV4

/-- A rain-intensity record: timestamp (minutes) and intensity label
(`"雨停"` is the rain-stopped marker). Mirrors the rows of the rain
DataFrame (columns 时间 / 雨强). -/
abbrev RainRec := Nat × String

/-- A runway-state record: timestamp (minutes) and state label.
Mirrors the rows of the runway DataFrame (columns 时间 / 跑道状态). -/
abbrev RunwayRec := Nat × String

/-- Function `is_runway_dry_state` from `rain_analysis_V4.py`:
`state in ["跑道干", "跑道恢复干"]`. -/
def is_runway_dry_state (state : String) : Bool :=
  state = "跑道干" || state = "跑道恢复干"

/-- Function `is_runway_wet_state` from `rain_analysis_V4.py`:
`state in ["跑道湿", "跑道大部湿（仍视为干跑道）"]`. -/
def is_runway_wet_state (state : String) : Bool :=
  state = "跑道湿" || state = "跑道大部湿（仍视为干跑道）"

/-- One entry of the merged timeline built inside
`split_wet_runway_episodes` (`kind = rain / runway`). -/
inductive TLEvent where
  | rain (t : Nat) (level : String)
  | runway (t : Nat) (state : String)
deriving DecidableEq

/-- Timestamp of a timeline event (the 时间 key). -/
def TLEvent.time : TLEvent → Nat
  | .rain t _ => t
  | .runway t _ => t

/-- Stable insertion of an event into a time-sorted list (the new event is
placed before the first event of strictly later or equal time it meets,
after earlier ones). -/
def insertByTime (e : TLEvent) : List TLEvent → List TLEvent
  | [] => [e]
  | x :: xs => if e.time ≤ x.time then e :: x :: xs else x :: insertByTime e xs

/-- Stable sort of the merged event list by timestamp, modelling
`pd.DataFrame(events).sort_values("时间")` in `split_wet_runway_episodes`.
(The individual per-stream `sort_values` calls at the start of the function
are subsumed by this combined sort; no claim settled through this
definition depends on the order of equal-timestamp events — that tie-break
is treated separately.) -/
def sortByTime : List TLEvent → List TLEvent
  | [] => []
  | x :: xs => insertByTime x (sortByTime xs)

/-- An emitted wet-runway episode, mirroring the dict
`{"start": ..., "end": ..., "rain_df": ..., "runway_df": ...}`.
`start`/`endT` are optional because the Python state variables
`start_time` / `end_time` are initialised to `None`. -/
structure Episode where
  start : Option Nat
  endT : Option Nat
  rain_df : List RainRec
  runway_df : List RunwayRec
deriving DecidableEq

/-- The mutable scan state of `split_wet_runway_episodes`
(`episodes`, `in_episode`, `rain_records`, `runway_records`,
`start_time`, `end_time`). -/
structure SplitState where
  episodes : List Episode
  in_episode : Bool
  rain_records : List RainRec
  runway_records : List RunwayRec
  start_time : Option Nat
  end_time : Option Nat
deriving DecidableEq

/-- Initial scan state (`episodes = []`, `in_episode = False`, empty
buffers, `start_time = end_time = None`). -/
def initState : SplitState :=
  { episodes := [], in_episode := false, rain_records := [],
    runway_records := [], start_time := none, end_time := none }

/-- The episode assembled from the current buffers, as built at the two
emission sites of `split_wet_runway_episodes`. -/
def SplitState.currentEpisode (st : SplitState) : Episode :=
  { start := st.start_time, endT := st.end_time,
    rain_df := st.rain_records, runway_df := st.runway_records }

/-- One iteration of the `for _, ev in timeline.iterrows()` loop of
`split_wet_runway_episodes` (lines 305–365 of `rain_analysis_V4.py`):
a non-stopped rain record opens an episode if none is open and is buffered;
a rain-stopped record is buffered only while an episode is open; a runway
record is buffered only while open, and a dry-class runway record closes
and emits the open episode; runway records seen while closed are dropped. -/
def splitStep (st : SplitState) (ev : TLEvent) : SplitState :=
  match ev with
  | .rain t level =>
    if level ≠ "雨停" then
      if st.in_episode then
        { st with rain_records := st.rain_records ++ [(t, level)],
                  end_time := some t }
      else
        { st with in_episode := true,
                  rain_records := [(t, level)],
                  runway_records := [],
                  start_time := some t,
                  end_time := some t }
    else
      if st.in_episode then
        { st with rain_records := st.rain_records ++ [(t, level)],
                  end_time := some t }
      else st
  | .runway t state =>
    if st.in_episode then
      let st' := { st with
        runway_records := st.runway_records ++ [(t, state)],
        end_time := some t }
      if is_runway_dry_state state then
        { episodes := st'.episodes ++ [st'.currentEpisode],
          in_episode := false, rain_records := [], runway_records := [],
          start_time := none, end_time := none }
      else st'
    else st

/-- The post-loop flush of `split_wet_runway_episodes` (lines 367–386):
an episode still open at the end of the scan, with at least one buffered
record, is emitted with the current `start_time` / `end_time`. -/
def splitFinish (st : SplitState) : List Episode :=
  if st.in_episode ∧ (st.rain_records ≠ [] ∨ st.runway_records ≠ []) then
    st.episodes ++ [st.currentEpisode]
  else st.episodes

/-- The merged timeline scanned by `split_wet_runway_episodes`: rain
records then runway records, tagged, sorted by timestamp. -/
def buildTimeline (rain : List RainRec) (runway : List RunwayRec) :
    List TLEvent :=
  sortByTime
    (rain.map (fun p => TLEvent.rain p.1 p.2) ++
     runway.map (fun p => TLEvent.runway p.1 p.2))

/-- The final scan state of `split_wet_runway_episodes` on the given
inputs. -/
def splitScan (rain : List RainRec) (runway : List RunwayRec) : SplitState :=
  (buildTimeline rain runway).foldl splitStep initState

/-- Function `split_wet_runway_episodes` from `rain_analysis_V4.py`: empty inputs
give no episodes; otherwise the merged, time-sorted timeline is scanned
once and closed episodes (plus a possible trailing open one) are
returned. -/
def split_wet_runway_episodes (rain : List RainRec)
    (runway : List RunwayRec) : List Episode :=
  if rain = [] ∧ runway = [] then []
  else splitFinish (splitScan rain runway)

/-- The four rain records of the spec's non-fragmentation scenario:
10:00 moderate, 10:30 rain-stopped, 10:45 light, 11:00 rain-stopped
(times in minutes of day). -/
def scenarioRain : List RainRec :=
  [(600, "中雨"), (630, "雨停"), (645, "小雨"), (660, "雨停")]

/-- C1 — the moderate / stopped / light / stopped rain sequence followed by
a 11:10 RecoveredDry runway record yields exactly one episode spanning
10:00–11:10 with all four rain records in order and the single runway
record; moreover a rain-stopped record processed while an episode is open
never closes it (the episode list is unchanged and the episode stays
open). -/
theorem C1_single_episode_nonfragmentation :
    split_wet_runway_episodes scenarioRain [(670, "跑道恢复干")] =
      [{ start := some 600, endT := some 670,
         rain_df := scenarioRain,
         runway_df := [(670, "跑道恢复干")] }] ∧
    ∀ (st : SplitState) (t : Nat), st.in_episode = true →
      (splitStep st (TLEvent.rain t "雨停")).episodes = st.episodes ∧
      (splitStep st (TLEvent.rain t "雨停")).in_episode = true := by
  constructor
  · decide
  · intro st t h
    simp [splitStep, h]

/-- Witness for C1: the rain-stopped record at 10:30, applied to the scan
state reached after the 10:00 moderate record, leaves the episode list
empty and the episode open. -/
theorem C1_single_episode_nonfragmentation_witness :
    (splitStep initState (TLEvent.rain 600 "中雨")).in_episode = true ∧
    (splitStep (splitStep initState (TLEvent.rain 600 "中雨"))
        (TLEvent.rain 630 "雨停")).episodes =
      (splitStep initState (TLEvent.rain 600 "中雨")).episodes ∧
    (splitStep (splitStep initState (TLEvent.rain 600 "中雨"))
        (TLEvent.rain 630 "雨停")).in_episode = true := by
  refine ⟨by decide, ?_, ?_⟩
  · exact (C1_single_episode_nonfragmentation.2
      (splitStep initState (TLEvent.rain 600 "中雨")) 630 (by decide)).1
  · exact (C1_single_episode_nonfragmentation.2
      (splitStep initState (TLEvent.rain 600 "中雨")) 630 (by decide)).2

/-- Scan-state invariant: while an episode is open its rain buffer is
non-empty (an episode is only ever opened by buffering its opening rain
record). -/
def rainBufInv (st : SplitState) : Prop :=
  st.in_episode = true → st.rain_records ≠ []

theorem rainBufInv_step (st : SplitState) (ev : TLEvent)
    (h : rainBufInv st) : rainBufInv (splitStep st ev) := by
  cases ev with
  | rain t level =>
    by_cases hl : level = "雨停" <;> by_cases hin : st.in_episode = true <;>
      simp [splitStep, rainBufInv, hl, hin] at h ⊢ <;>
      intro hcon <;> simp_all
  | runway t state =>
    by_cases hin : st.in_episode = true
    · by_cases hd : is_runway_dry_state state = true <;>
        simp [splitStep, rainBufInv, hin, hd] at h ⊢ <;>
        intro hcon <;> simp_all
    · simpa [splitStep, rainBufInv, hin] using h

theorem rainBufInv_foldl (tl : List TLEvent) (st : SplitState)
    (h : rainBufInv st) : rainBufInv (tl.foldl splitStep st) := by
  induction tl generalizing st with
  | nil => exact h
  | cons ev tl ih => exact ih _ (rainBufInv_step st ev h)

/-- A closed (dry-terminated) episode: its runway buffer is non-empty and
its last runway record carries a dry-class state. -/
def epClosedOk (ep : Episode) : Prop :=
  ∃ p : RunwayRec, ep.runway_df.getLast? = some p ∧
    is_runway_dry_state p.2 = true

theorem epClosedOk_step (st : SplitState) (ev : TLEvent)
    (h : ∀ ep ∈ st.episodes, epClosedOk ep) :
    ∀ ep ∈ (splitStep st ev).episodes, epClosedOk ep := by
  cases ev with
  | rain t level =>
    by_cases hl : level = "雨停" <;> by_cases hin : st.in_episode = true <;>
      simpa [splitStep, hl, hin] using h
  | runway t state =>
    by_cases hin : st.in_episode = true
    · by_cases hd : is_runway_dry_state state = true
      · intro ep hep
        simp [splitStep, hin, hd] at hep
        rcases hep with hep | hep
        · exact h ep hep
        · subst hep
          exact ⟨(t, state), by simp [SplitState.currentEpisode], hd⟩
      · simpa [splitStep, hin, hd] using h
    · simpa [splitStep, hin] using h

theorem epClosedOk_foldl (tl : List TLEvent) (st : SplitState)
    (h : ∀ ep ∈ st.episodes, epClosedOk ep) :
    ∀ ep ∈ (tl.foldl splitStep st).episodes, epClosedOk ep := by
  induction tl generalizing st with
  | nil => exact h
  | cons ev tl ih => exact ih _ (epClosedOk_step st ev h)

/-- C2 — every episode emitted by `split_wet_runway_episodes` except
possibly the last one has a non-empty runway buffer ending with a
dry-class record (episodes other than the trailing open-ended one are only
emitted at the dry-closure site, which has just buffered the closing
dry-class record). This is proved for all inputs, sorted or not. -/
theorem C2_closed_episodes_end_dry (rain : List RainRec)
    (runway : List RunwayRec) :
    ∀ ep ∈ (split_wet_runway_episodes rain runway).dropLast, epClosedOk ep := by
  intro ep hep
  by_cases hg : rain = [] ∧ runway = []
  · simp [split_wet_runway_episodes, hg] at hep
  · have hall : ∀ e ∈ (splitScan rain runway).episodes, epClosedOk e :=
      epClosedOk_foldl _ _ (by simp [initState])
    rw [split_wet_runway_episodes, if_neg hg] at hep
    rw [splitFinish] at hep
    split at hep
    · rw [List.dropLast_concat] at hep
      exact hall ep hep
    · exact hall ep (List.dropLast_subset _ hep)

/-- Witness for C2: in the input with showers at t=1 and t=3 each closed by
a dry runway record (t=2, t=4), the first emitted episode is in the
`dropLast` of the output and its runway buffer ends with the dry record. -/
theorem C2_closed_episodes_end_dry_witness :
    ({ start := some 1, endT := some 2, rain_df := [(1, "小雨")],
       runway_df := [(2, "跑道干")] } : Episode) ∈
      (split_wet_runway_episodes [(1, "小雨"), (3, "中雨")]
        [(2, "跑道干"), (4, "跑道恢复干")]).dropLast ∧
    epClosedOk ({ start := some 1, endT := some 2,
                  rain_df := [(1, "小雨")],
                  runway_df := [(2, "跑道干")] } : Episode) := by
  refine ⟨by decide, ?_⟩
  exact C2_closed_episodes_end_dry [(1, "小雨"), (3, "中雨")]
    [(2, "跑道干"), (4, "跑道恢复干")] _ (by decide)

/-- C5 — if the scan ends with an episode still open, exactly one final
episode is appended to the closed ones, carrying the scan's current
`start_time` / `end_time` and buffers; concretely, the scenario rain
records followed by a (non-dry) Wet runway record at 11:10 yield exactly
one open-ended episode 10:00–11:10 containing all records. -/
theorem C5_open_episode_flushed :
    (∀ (rain : List RainRec) (runway : List RunwayRec),
        (splitScan rain runway).in_episode = true →
        split_wet_runway_episodes rain runway =
          (splitScan rain runway).episodes ++
            [(splitScan rain runway).currentEpisode]) ∧
    split_wet_runway_episodes scenarioRain [(670, "跑道湿")] =
      [{ start := some 600, endT := some 670,
         rain_df := scenarioRain, runway_df := [(670, "跑道湿")] }] := by
  constructor
  · intro rain runway hopen
    have hg : ¬(rain = [] ∧ runway = []) := by
      rintro ⟨h1, h2⟩
      subst h1; subst h2
      simp [splitScan, buildTimeline, sortByTime, initState] at hopen
    have hrb : (splitScan rain runway).rain_records ≠ [] :=
      rainBufInv_foldl _ _ (by simp [rainBufInv, initState]) hopen
    rw [split_wet_runway_episodes, if_neg hg, splitFinish,
      if_pos ⟨hopen, Or.inl hrb⟩]
  · decide

/-- Witness for C5: the Wet-closing scenario leaves the scan open, and the
flush equation of the theorem holds there. -/
theorem C5_open_episode_flushed_witness :
    (splitScan scenarioRain [(670, "跑道湿")]).in_episode = true ∧
    split_wet_runway_episodes scenarioRain [(670, "跑道湿")] =
      (splitScan scenarioRain [(670, "跑道湿")]).episodes ++
        [(splitScan scenarioRain [(670, "跑道湿")]).currentEpisode] :=
  ⟨by decide, C5_open_episode_flushed.1 scenarioRain [(670, "跑道湿")]
    (by decide)⟩

theorem mem_insertByTime {a e : TLEvent} {l : List TLEvent}
    (h : a ∈ insertByTime e l) : a = e ∨ a ∈ l := by
  induction l with
  | nil => simpa [insertByTime] using h
  | cons x xs ih =>
    rw [insertByTime] at h
    split at h
    · simpa using h
    · rw [List.mem_cons] at h
      rcases h with h | h
      · exact Or.inr (by simp [h])
      · rcases ih h with h' | h'
        · exact Or.inl h'
        · exact Or.inr (by simp [h'])

theorem mem_sortByTime {a : TLEvent} {l : List TLEvent}
    (h : a ∈ sortByTime l) : a ∈ l := by
  induction l with
  | nil => simpa [sortByTime] using h
  | cons x xs ih =>
    rw [sortByTime] at h
    rcases mem_insertByTime h with h' | h'
    · simp [h']
    · exact List.mem_cons_of_mem _ (ih h')

theorem foldl_runwayOnly (tl : List TLEvent)
    (hev : ∀ ev ∈ tl, ∃ t s, ev = TLEvent.runway t s)
    (st : SplitState) (hin : st.in_episode = false) :
    tl.foldl splitStep st = st := by
  induction tl with
  | nil => rfl
  | cons ev tl ih =>
    obtain ⟨t, s, rfl⟩ := hev ev (by simp)
    rw [List.foldl_cons]
    have hstep : splitStep st (TLEvent.runway t s) = st := by
      simp [splitStep, hin]
    rw [hstep]
    exact ih (fun e he => hev e (by simp [he]))

/-- C6 — a runway record arriving while no episode is open (in particular
a dry-class one) leaves the scan state completely unchanged, and an input
consisting only of dry-class runway records (no rain at all) produces zero
episodes. -/
theorem C6_dry_runway_without_episode_ignored :
    (∀ (st : SplitState) (t : Nat) (s : String), st.in_episode = false →
        is_runway_dry_state s = true →
        splitStep st (TLEvent.runway t s) = st) ∧
    ∀ (runway : List RunwayRec),
      (∀ p ∈ runway, is_runway_dry_state p.2 = true) →
      split_wet_runway_episodes [] runway = [] := by
  constructor
  · intro st t s hin _
    simp [splitStep, hin]
  · intro runway _
    by_cases hr : runway = []
    · simp [split_wet_runway_episodes, hr]
    · have hg : ¬(([] : List RainRec) = [] ∧ runway = []) := by
        simp [hr]
      rw [split_wet_runway_episodes, if_neg hg]
      have hev : ∀ ev ∈ buildTimeline [] runway,
          ∃ t s, ev = TLEvent.runway t s := by
        intro ev h
        have h' := mem_sortByTime (by simpa [buildTimeline] using h)
        simp only [List.mem_map] at h'
        obtain ⟨p, _, rfl⟩ := h'
        exact ⟨p.1, p.2, rfl⟩
      rw [splitScan, foldl_runwayOnly _ hev _ (by simp [initState])]
      simp [splitFinish, initState]

/-- Witness for C6: a single dry runway record at t=5 with no prior rain is
a no-op on the initial state and yields zero episodes. -/
theorem C6_dry_runway_without_episode_ignored_witness :
    splitStep initState (TLEvent.runway 5 "跑道干") = initState ∧
    split_wet_runway_episodes [] [(5, "跑道干")] = [] :=
  ⟨C6_dry_runway_without_episode_ignored.1 initState 5 "跑道干"
      (by decide) (by decide),
   C6_dry_runway_without_episode_ignored.2 [(5, "跑道干")]
      (by decide)⟩

/-- Stable insertion of a rain record into a time-sorted list. -/
def insertRainByTime (e : RainRec) : List RainRec → List RainRec
  | [] => [e]
  | x :: xs => if e.1 ≤ x.1 then e :: x :: xs else x :: insertRainByTime e xs

/-- Stable sort of rain records by timestamp, standing in for
`df.sort_values("时间")` at the top of `analyze_rain_events`. The real
call uses the default unstable quicksort, which can permute an
equal-timestamp block of more than 16 records even when the input is
already sorted; that divergence from the spec's stable-on-ties discipline
is recorded as the C4 code bug, and no claim is confirmed through the
stable model's tie order. -/
def sortRainByTime : List RainRec → List RainRec
  | [] => []
  | x :: xs => insertRainByTime x (sortRainByTime xs)

/-- State of the segmentation loop of `analyze_rain_events`: the sealed
events so far and the current buffer. -/
abbrev AnaState := List (List RainRec) × List RainRec

/-- One iteration of the `for _, row in df.iterrows()` loop of
`analyze_rain_events` (lines 120–127 of `rain_analysis_V4.py`): every
record is appended to the current buffer; a rain-stopped record
additionally seals the buffer into an event and starts a fresh one. -/
def analyzeStep (st : AnaState) (row : RainRec) : AnaState :=
  if row.2 ≠ "雨停" then (st.1, st.2 ++ [row])
  else (st.1 ++ [st.2 ++ [row]], [])

/-- The post-loop seal of `analyze_rain_events` (lines 129–131): a
non-empty trailing buffer with no rain-stopped marker still becomes an
event. -/
def analyzeFinish (st : AnaState) : List (List RainRec) :=
  if st.2 ≠ [] then st.1 ++ [st.2] else st.1

/-- Function `analyze_rain_events` from `rain_analysis_V4.py`, returning
the record list of each event. (`format_event` wraps each sealed buffer
into a dict `{"records": ..., "report": ...}` that keeps the record list
unchanged; the rendered report text and the unused 强度 column are
presentation-only and not modelled.) -/
def analyze_rain_events (rs : List RainRec) : List (List RainRec) :=
  analyzeFinish ((sortRainByTime rs).foldl analyzeStep ([], []))

theorem insertRainByTime_of_le (e : RainRec) (l : List RainRec)
    (h : ∀ x ∈ l, e.1 ≤ x.1) : insertRainByTime e l = e :: l := by
  cases l with
  | nil => rfl
  | cons x xs => simp [insertRainByTime, h x (by simp)]

theorem sortRainByTime_of_sorted (l : List RainRec)
    (h : l.Pairwise (fun a b => a.1 ≤ b.1)) : sortRainByTime l = l := by
  induction l with
  | nil => rfl
  | cons x xs ih =>
    rw [List.pairwise_cons] at h
    rw [sortRainByTime, ih h.2, insertRainByTime_of_le x xs h.1]

theorem analyze_foldl_join (rows : List RainRec) (st : AnaState) :
    ((rows.foldl analyzeStep st).1.flatten ++ (rows.foldl analyzeStep st).2) =
      st.1.flatten ++ st.2 ++ rows := by
  induction rows generalizing st with
  | nil => simp
  | cons row rows ih =>
    rw [List.foldl_cons, ih]
    by_cases hl : row.2 = "雨停" <;> simp [analyzeStep, hl]

/-- A chronologically sorted rain input with two records at the same
minute, in its given order. -/
def rainTieA : List RainRec := [(600, "小雨"), (600, "中雨")]

/-- The same records in the other time-sorted order, as the unstable
library sort may emit them for a large enough equal-timestamp block. -/
def rainTieB : List RainRec := [(600, "中雨"), (600, "小雨")]

/-- C4 (supporting theorem) — the two rain lists hold the same records and
both are sorted by timestamp, yet the segmentation loop applied to the
reordered list concatenates back to the reordered list, not to the
original input: the concatenation of the emitted events reproduces
exactly the order the loop scans (see `analyze_foldl_join`), so when the
program's unstable internal sort permutes an equal-timestamp block of an
already-sorted input, the events' concatenation is only a permutation of
that input, and the claimed exact reproduction fails. -/
theorem C4_tie_order_changes_events :
    rainTieA.Perm rainTieB ∧
    rainTieA.Pairwise (fun a b => a.1 ≤ b.1) ∧
    rainTieB.Pairwise (fun a b => a.1 ≤ b.1) ∧
    (analyzeFinish (rainTieB.foldl analyzeStep ([], []))).flatten =
      rainTieB ∧
    rainTieB ≠ rainTieA := by
  exact ⟨by decide, by decide, by decide, by decide, by decide⟩

/-- ASCII word character, the `\w` class of the report regexes (letters,
digits, underscore; the report alphabet is ASCII). -/
def isWordChar (c : Char) : Bool :=
  c.isAlphanum || c = '_'

/-- A `\b` boundary test against the adjacent character (`none` = string
edge). Every token used with `\b` in `parse_metar` borders a letter, so
the boundary holds iff the adjacent character is absent or not a word
character. -/
def boundaryOk (b : Bool) : Option Char → Bool
  | none => true
  | some c => !b || !isWordChar c

/-- Scan of `re.search` for a literal token with optional `\b` conditions
before (`pre`) and after (`post`); `prev` is the character immediately to
the left of the current position. -/
def searchAux (tk : List Char) (pre post : Bool) :
    Option Char → List Char → Bool
  | _, [] => false
  | prev, c :: rest =>
    (boundaryOk pre prev && tk.isPrefixOf (c :: rest) &&
      boundaryOk post (((c :: rest).drop tk.length).head?))
    || searchAux tk pre post (some c) rest

/-- Model of `re.search(pattern, text)` for the literal-token weather patterns of
`parse_metar`. -/
def searchTok (tk : String) (pre post : Bool) (s : List Char) : Bool :=
  searchAux tk.toList pre post none s

/-- One row of the `WEATHER_PATTERNS` table of `parse_metar`: the compiled
pattern, the Chinese description, the rain flag and the rain level. -/
structure WPattern where
  find : List Char → Bool
  desc : String
  israin : Bool
  rainlevel : Option String

/-- The `WEATHER_PATTERNS` dict of `parse_metar`, in its (insertion-order
preserved) iteration order. -/
def WEATHER_PATTERNS : List WPattern :=
  [ ⟨searchTok "+SHRA" false false, "大阵雨", true, some "大雨"⟩,
    ⟨searchTok "-SHRA" false false, "小阵雨", true, some "小雨"⟩,
    ⟨searchTok "SHRA" true true, "中阵雨", true, some "中雨"⟩,
    ⟨searchTok "+RA" false true, "大雨", true, some "大雨"⟩,
    ⟨searchTok "-RA" false true, "小雨", true, some "小雨"⟩,
    ⟨searchTok "RA" true true, "中雨", true, some "中雨"⟩,
    ⟨searchTok "TSRA" false false, "雷雨", true, some "雷阵雨"⟩,
    ⟨searchTok "TS" true true, "雷暴", false, none⟩,
    ⟨searchTok "DZ" true true, "毛毛雨", true, some "小雨"⟩,
    ⟨searchTok "FG" true true, "雾", false, none⟩,
    ⟨searchTok "BR" true true, "薄雾", false, none⟩,
    ⟨searchTok "HZ" true true, "霾", false, none⟩ ]

/-- Splitting on whitespace runs (`text.split()`), accumulating the
current word reversed. -/
def wordsAux (cur : List Char) : List Char → List (List Char)
  | [] => if cur = [] then [] else [cur.reverse]
  | c :: rest =>
    if c.isWhitespace then
      if cur = [] then wordsAux [] rest
      else cur.reverse :: wordsAux [] rest
    else wordsAux (c :: cur) rest

/-- Model of `" ".join(words)`. -/
def joinSpace : List (List Char) → List Char
  | [] => []
  | [w] => w
  | w :: ws => w ++ ' ' :: joinSpace ws

/-- The whitespace normalisation at the top of `parse_metar`
(`text.strip()` followed by `" ".join(text.split())`; the strip is
subsumed by split-and-join). -/
def normalizeWS (s : List Char) : List Char :=
  joinSpace (wordsAux [] s)

/-- The cloud-amount alternation `(FEW|SCT|BKN|OVC)` tried at the current
position. -/
def cloudAmount (s : List Char) : Option String :=
  if ("FEW".toList).isPrefixOf s then some "FEW"
  else if ("SCT".toList).isPrefixOf s then some "SCT"
  else if ("BKN".toList).isPrefixOf s then some "BKN"
  else if ("OVC".toList).isPrefixOf s then some "OVC"
  else none

def digitVal (c : Char) : Nat := c.toNat - 48

/-- The `(\d{3})` group: the next three characters as a number. -/
def threeDigits : List Char → Option Nat
  | a :: b :: c :: _ =>
    if a.isDigit && b.isDigit && c.isDigit then
      some (100 * digitVal a + 10 * digitVal b + digitVal c)
    else none
  | _ => none

/-- Fuel-indexed left-to-right scan for
`re.findall(r"(FEW|SCT|BKN|OVC)(\d{3})", text)`: at each position try the
six-character group; on a match emit it and resume after it, otherwise
advance one character. Each step consumes at least one character, so fuel
equal to the remaining length never runs out. -/
def findCloudsAux : Nat → List Char → List (String × Nat)
  | 0, _ => []
  | _, [] => []
  | fuel + 1, c :: rest =>
    match cloudAmount (c :: rest), threeDigits ((c :: rest).drop 3) with
    | some amt, some h => (amt, h) :: findCloudsAux fuel ((c :: rest).drop 6)
    | _, _ => findCloudsAux fuel rest

/-- Model of `re.findall(r"(FEW|SCT|BKN|OVC)(\d{3})", text)`: all non-overlapping
cloud groups, left to right. -/
def findClouds (s : List Char) : List (String × Nat) :=
  findCloudsAux s.length s

/-- The height conversion of one cloud group:
`round(int(h) * 100 * 0.3048)`. The Python float product `ft * 0.3048`
is modelled as the exact rational: for `h ≤ 999` the exact value
`h * 30.48` is at least `0.02` away from every half-integer, far beyond
the float error, so Python's float evaluation and its half-to-even
`round` agree with exact rational rounding to the nearest integer. -/
def cloud_height_m (h : Nat) : ℤ :=
  round ((h * 100 : ℚ) * (3048 / 10000))

/-- The parsed-report fields the rain-classification and cloud-height
claims concern (`is_raining`, `rain_type`, `weather`, `clouds` of the
result dict of `parse_metar`; the station/time/wind/visibility/
temperature fields are independent of these and not modelled). -/
structure MetarResult where
  is_raining : Bool
  rain_type : Option String
  weather : List String
  clouds : List (String × ℤ)
deriving DecidableEq

/-- One iteration of the `for pattern, (desc, israin, rainlevel) in
WEATHER_PATTERNS.items()` loop: on a match the description is appended,
the rain flag is set if the pattern classifies rain, and the rain type is
set only if still unset. -/
def weatherStep (t : List Char) (acc : List String × Bool × Option String)
    (p : WPattern) : List String × Bool × Option String :=
  if p.find t then
    (acc.1 ++ [p.desc],
     (acc.2.1 || p.israin),
     if p.israin && acc.2.2 = none then p.rainlevel else acc.2.2)
  else acc

/-- Function `parse_metar` from `metar_parser_V4.py`, restricted to the fields of
`MetarResult`. -/
def parse_metar (s : String) : MetarResult :=
  let t := normalizeWS s.toList
  let w := (WEATHER_PATTERNS.foldl (weatherStep t) ([], false, none))
  { is_raining := w.2.1, rain_type := w.2.2, weather := w.1,
    clouds := (findClouds t).map (fun p => (p.1, cloud_height_m p.2)) }

theorem weatherFold_characterisation (t : List Char) (ps : List WPattern)
    (acc : List String × Bool × Option String)
    (hps : ∀ p ∈ ps, p.israin = true → p.rainlevel ≠ none) :
    (ps.foldl (weatherStep t) acc).2.1 =
      (acc.2.1 || ps.any (fun p => p.israin && p.find t)) ∧
    (ps.foldl (weatherStep t) acc).2.2 =
      (match acc.2.2 with
       | some v => some v
       | none =>
         (ps.find? (fun p => p.israin && p.find t)).bind
           (fun p => p.rainlevel)) := by
  induction ps generalizing acc with
  | nil => cases h : acc.2.2 <;> simp [h]
  | cons p ps ih =>
    have hp := hps p (by simp)
    have hps' : ∀ q ∈ ps, q.israin = true → q.rainlevel ≠ none :=
      fun q hq => hps q (by simp [hq])
    rw [List.foldl_cons]
    obtain ⟨ih1, ih2⟩ := ih (weatherStep t acc p) hps'
    constructor
    · rw [ih1]
      by_cases hf : p.find t = true <;>
        simp [weatherStep, hf, List.any_cons, Bool.or_assoc]
    · rw [ih2]
      by_cases hf : p.find t = true
      · by_cases hr : p.israin = true
        · cases hacc : acc.2.2 with
          | none =>
            obtain ⟨v, hv⟩ := Option.ne_none_iff_exists'.mp (hp hr)
            simp [weatherStep, hf, hr, hacc, List.find?_cons, hv]
          | some v => simp [weatherStep, hf, hr, hacc, List.find?_cons]
        · have hr' : p.israin = false := by
            cases hpr : p.israin
            · rfl
            · exact absurd hpr hr
          cases hacc : acc.2.2 <;>
            simp [weatherStep, hf, hr', hacc, List.find?_cons]
      · have hf' : p.find t = false := by
          cases hpf : p.find t
          · rfl
          · exact absurd hpf hf
        cases hacc : acc.2.2 <;>
          simp [weatherStep, hf', hacc, List.find?_cons]

/-- C7 — `parse_metar` sets `is_raining` iff some rain-classifying pattern
matches, and `rain_type` is the classification of the first matching
rain-classifying pattern in table order; later rain matches never
overwrite it. Concretely, `"-RA TSRA"` matches both the light-rain and
the thunderstorm-rain patterns, and `rain_type` is the light-rain
classification, not the more severe one. -/
theorem C7_first_rain_match_wins :
    (∀ s : String,
      (parse_metar s).is_raining =
        WEATHER_PATTERNS.any
          (fun p => p.israin && p.find (normalizeWS s.toList)) ∧
      (parse_metar s).rain_type =
        (WEATHER_PATTERNS.find?
          (fun p => p.israin && p.find (normalizeWS s.toList))).bind
            (fun p => p.rainlevel)) ∧
    (parse_metar "-RA TSRA").is_raining = true ∧
    (parse_metar "-RA TSRA").rain_type = some "小雨" := by
  refine ⟨?_, by decide, by decide⟩
  intro s
  obtain ⟨h1, h2⟩ := weatherFold_characterisation (normalizeWS s.toList)
    WEATHER_PATTERNS ([], false, none) (by decide)
  exact ⟨by simpa using h1, by simpa using h2⟩

/-- C9 — every cloud group is recorded with height
`round(h * 100 * 0.3048)` metres: the recorded value is within half a
metre of the exact conversion of `h` hundreds of feet by the standard
foot-to-metre factor, and the height field `"020"` yields 610 m. -/
theorem C9_cloud_height_conversion :
    (∀ s : String,
      (parse_metar s).clouds =
        (findClouds (normalizeWS s.toList)).map
          (fun p => (p.1, cloud_height_m p.2))) ∧
    (∀ h : Nat,
      |(cloud_height_m h : ℚ) - (h * 100 : ℚ) * (3048 / 10000)| ≤ 1 / 2) ∧
    cloud_height_m 20 = 610 ∧
    (parse_metar "METAR VVCS 210330Z FEW020").clouds = [("FEW", 610)] := by
  have h610 : cloud_height_m 20 = 610 := by
    rw [cloud_height_m, round_eq, Int.floor_eq_iff]
    constructor <;> norm_num
  refine ⟨?_, ?_, h610, ?_⟩
  · intro s
    rfl
  · intro h
    unfold cloud_height_m
    rw [abs_sub_comm]
    exact abs_sub_round _
  have hf : findClouds (normalizeWS ("METAR VVCS 210330Z FEW020".toList)) =
      [("FEW", 20)] := by
    set_option maxHeartbeats 1000000 in decide
  show (findClouds (normalizeWS ("METAR VVCS 210330Z FEW020".toList))).map
      (fun p => (p.1, cloud_height_m p.2)) = [("FEW", 610)]
  rw [hf]
  simp [h610]

/-- Model of `s.strip()`: drop whitespace from both ends. -/
def stripWS (l : List Char) : List Char :=
  ((l.dropWhile Char.isWhitespace).reverse.dropWhile Char.isWhitespace).reverse

/-- Numeric value of a digit string (`int(...)` on an all-digit string). -/
def digitsVal (l : List Char) : Nat :=
  l.foldl (fun n c => 10 * n + digitVal c) 0

/-- The range check and formatting tail of `parse_time_numeric`:
`0 <= hh <= 23 and 0 <= mm <= 59`, then `f"{hh}:{mm}"` built from the
already-padded digit strings. -/
def checkTime (hh mm : List Char) : Option String :=
  if digitsVal hh ≤ 23 ∧ digitsVal mm ≤ 59 then
    some (String.mk (hh ++ ':' :: mm))
  else none

/-- Function `parse_time_numeric` from `app_V4.py`: strip, require a non-empty
all-digit string, split into hour/minute text by digit count (4 = HHMM,
3 = HMM, 2 = MM, 1 = M, anything else rejected), then range-check.
(Python `str.isdigit` also admits some non-ASCII digit characters; the
manual-entry format is ASCII numerals, modelled by `Char.isDigit`.) -/
def parse_time_numeric (s : String) : Option String :=
  let t := stripWS s.toList
  if t ≠ [] ∧ t.all Char.isDigit then
    match t with
    | [a, b, c, d] => checkTime [a, b] [c, d]
    | [a, b, c] => checkTime ['0', a] [b, c]
    | [a, b] => checkTime ['0', '0'] [a, b]
    | [a] => checkTime ['0', '0'] ['0', a]
    | _ => none
  else none

/-- The spec's digit-count table for manual timestamps (§6): 4 digits =
HHMM, 3 = HMM with implied leading hour 0, 2 = MM with hour 00, 1 = M
with hour 00; other lengths are not clock times. Stated from the spec's
words, to be compared with `parse_time_numeric`. -/
def spec_hour_minute : List Char → Option (Nat × Nat)
  | [a, b, c, d] =>
    some (10 * digitVal a + digitVal b, 10 * digitVal c + digitVal d)
  | [a, b, c] => some (digitVal a, 10 * digitVal b + digitVal c)
  | [a, b] => some (0, 10 * digitVal a + digitVal b)
  | [a] => some (0, digitVal a)
  | _ => none

/-- The spec's acceptance condition: a 1-to-4-digit string whose hour and
minute satisfy `0 ≤ HH ≤ 23` and `0 ≤ MM ≤ 59`. -/
def spec_time_ok (t : List Char) : Bool :=
  t.all Char.isDigit &&
    (match spec_hour_minute t with
     | some (h, m) => decide (h ≤ 23) && decide (m ≤ 59)
     | none => false)

theorem digitVal_zero_char : digitVal '0' = 0 := by decide

theorem digitsVal_pair (x y : Char) :
    digitsVal [x, y] = 10 * digitVal x + digitVal y := by
  simp [digitsVal]

theorem toNat_bounds_of_isDigit {c : Char} (h : c.isDigit = true) :
    48 ≤ c.toNat ∧ c.toNat ≤ 57 := by
  simp only [Char.isDigit, Bool.and_eq_true, decide_eq_true_eq] at h
  obtain ⟨h1, h2⟩ := h
  have h1' : (48 : UInt32) ≤ c.val := h1
  have h2' : c.val ≤ (57 : UInt32) := h2
  rw [UInt32.le_def, BitVec.le_def] at h1' h2'
  have e48 : (48 : UInt32).toBitVec.toNat = 48 := by decide
  have e57 : (57 : UInt32).toBitVec.toNat = 57 := by decide
  have ec : c.toNat = c.val.toBitVec.toNat := rfl
  omega

theorem digitVal_le_nine {c : Char} (h : c.isDigit = true) : digitVal c ≤ 9 := by
  have hb := toNat_bounds_of_isDigit h
  rw [digitVal]
  omega

/-- C8 — `parse_time_numeric` returns `none` exactly on inputs the spec
rejects; on accepted inputs it maps the digits by the digit-count table
(HHMM / 0·HMM / 00:MM / 00:0M); and the spec's six concrete examples
behave as stated. -/
theorem C8_parse_time_numeric_table :
    (∀ s : String,
      parse_time_numeric s = none ↔ spec_time_ok (stripWS s.toList) = false) ∧
    (∀ (s : String) (a b c d : Char), stripWS s.toList = [a, b, c, d] →
      [a, b, c, d].all Char.isDigit = true →
      digitsVal [a, b] ≤ 23 → digitsVal [c, d] ≤ 59 →
      parse_time_numeric s = some (String.mk [a, b, ':', c, d])) ∧
    (∀ (s : String) (a b c : Char), stripWS s.toList = [a, b, c] →
      [a, b, c].all Char.isDigit = true →
      digitsVal ['0', a] ≤ 23 → digitsVal [b, c] ≤ 59 →
      parse_time_numeric s = some (String.mk ['0', a, ':', b, c])) ∧
    (∀ (s : String) (a b : Char), stripWS s.toList = [a, b] →
      [a, b].all Char.isDigit = true → digitsVal [a, b] ≤ 59 →
      parse_time_numeric s = some (String.mk ['0', '0', ':', a, b])) ∧
    (∀ (s : String) (a : Char), stripWS s.toList = [a] →
      a.isDigit = true →
      parse_time_numeric s = some (String.mk ['0', '0', ':', '0', a])) ∧
    parse_time_numeric "1130" = some "11:30" ∧
    parse_time_numeric "130" = some "01:30" ∧
    parse_time_numeric "45" = some "00:45" ∧
    parse_time_numeric "9" = some "00:09" ∧
    parse_time_numeric "2460" = none ∧
    parse_time_numeric "99" = none := by
  refine ⟨?_, ?_, ?_, ?_, ?_, by decide, by decide, by decide, by decide,
    by decide, by decide⟩
  · intro s
    rw [parse_time_numeric]
    generalize stripWS s.toList = t
    rcases t with _ | ⟨a, _ | ⟨b, _ | ⟨c, _ | ⟨d, _ | rest⟩⟩⟩⟩
    · simp [spec_time_ok, spec_hour_minute]
    · by_cases hd : a.isDigit = true
      · simp [checkTime, spec_time_ok, spec_hour_minute, hd,
          digitsVal_pair, digitVal_zero_char]
      · rw [Bool.not_eq_true] at hd
        simp [spec_time_ok, hd]
    · by_cases hd : ([a, b]).all Char.isDigit = true
      · simp [checkTime, spec_time_ok, spec_hour_minute, hd,
          digitsVal_pair, digitVal_zero_char]
      · rw [Bool.not_eq_true] at hd
        simp [spec_time_ok, hd]
    · by_cases hd : ([a, b, c]).all Char.isDigit = true
      · simp [checkTime, spec_time_ok, spec_hour_minute, hd,
          digitsVal_pair, digitVal_zero_char]
      · rw [Bool.not_eq_true] at hd
        simp [spec_time_ok, hd]
    · by_cases hd : ([a, b, c, d]).all Char.isDigit = true
      · simp [checkTime, spec_time_ok, spec_hour_minute, hd,
          digitsVal_pair, digitVal_zero_char]
      · rw [Bool.not_eq_true] at hd
        simp [spec_time_ok, hd]
    · simp [spec_time_ok, spec_hour_minute]
  · intro s a b c d ht hd h1 h2
    rw [parse_time_numeric, ht]
    simp [hd, checkTime, h1, h2]
  · intro s a b c ht hd h1 h2
    rw [parse_time_numeric, ht]
    simp [hd, checkTime, h1, h2]
  · intro s a b ht hd h2
    rw [parse_time_numeric, ht]
    have h1 : digitsVal ['0', '0'] ≤ 23 := by decide
    simp [hd, checkTime, h1, h2]
  · intro s a ht hd
    rw [parse_time_numeric, ht]
    have h1 : digitsVal ['0', '0'] ≤ 23 := by decide
    have h2 : digitsVal ['0', a] ≤ 59 := by
      have h9 := digitVal_le_nine hd
      rw [digitsVal_pair, digitVal_zero_char]
      omega
    simp [hd, checkTime, h1, h2]

/-- Witness for C8: the 4-digit table case applied at `"1130"`. -/
theorem C8_parse_time_numeric_table_witness :
    parse_time_numeric "1130" = some (String.mk ['1', '1', ':', '3', '0']) :=
  C8_parse_time_numeric_table.2.1 "1130" '1' '1' '3' '0' (by decide)
    (by decide) (by decide) (by decide)

/-- Two-decimal-digit rendering of a value below 100 (the `%02d` field for
such values). -/
def twoDigits (n : Nat) : List Char :=
  [Char.ofNat (48 + n / 10), Char.ofNat (48 + n % 10)]

/-- Python `f"{n:02d}"`: decimal, zero-padded to at least two
characters. -/
def pad2 (n : Nat) : List Char :=
  if n < 100 then twoDigits n else Nat.toDigits 10 n

/-- The output format of `to_vn`: `f"{dd:02d}日 {hh:02d}:{mm:02d}"`. -/
def fmtVN (dd hh mm : Nat) : String :=
  String.mk (pad2 dd ++ '日' :: ' ' :: (pad2 hh ++ ':' :: pad2 mm))

/-- Function `to_vn` from `page_metar` in `app_V4.py`: match
`re.match(r"(\d{2})(\d{2})(\d{2})Z", t)` (six digits then `Z` at the start
of the text, anything after is ignored); add 7 hours; when the shifted
hour reaches 24 subtract 24 and carry a plain `+1` onto the day number;
render `f"{dd+add:02d}日 {hh2:02d}:{mm:02d}"`. Non-matching input yields
the empty string. -/
def to_vn (t : String) : String :=
  match t.toList with
  | d1 :: d2 :: h1 :: h2 :: m1 :: m2 :: 'Z' :: _ =>
    if [d1, d2, h1, h2, m1, m2].all Char.isDigit then
      let dd := 10 * digitVal d1 + digitVal d2
      let hh := 10 * digitVal h1 + digitVal h2
      let mm := 10 * digitVal m1 + digitVal m2
      if hh + 7 ≥ 24 then fmtVN (dd + 1) (hh + 7 - 24) mm
      else fmtVN dd (hh + 7) mm
    else ""
  | _ => ""

/-- A `DDHHMMZ` observation-time string assembled from two-digit
fields. -/
def mkObsTime (dd hh mm : Nat) : String :=
  String.mk (twoDigits dd ++ twoDigits hh ++ twoDigits mm ++ ['Z'])

theorem digitChar_spec (k : Nat) (hk : k ≤ 9) :
    (Char.ofNat (48 + k)).isDigit = true ∧
      digitVal (Char.ofNat (48 + k)) = k := by
  interval_cases k <;> exact ⟨by decide, by decide⟩

/-- C10 — in the +7-hour local-time projection of a `DDHHMMZ` time, the
displayed day is `DD + 1` by plain integer increment (no calendar or
month-end wrap) whenever `HH + 7` reaches 24, and `DD` unchanged
otherwise; concretely day 31 hour 18 displays as day 32. -/
theorem C10_day_rollover_plain_increment :
    (∀ dd hh mm : Nat, dd ≤ 99 → hh ≤ 23 → mm ≤ 59 →
      to_vn (mkObsTime dd hh mm) =
        if hh + 7 ≥ 24 then fmtVN (dd + 1) (hh + 7 - 24) mm
        else fmtVN dd (hh + 7) mm) ∧
    to_vn "311800Z" = "32日 01:00" := by
  constructor
  · intro dd hh mm hdd hhh hmm
    obtain ⟨hd1, hv1⟩ := digitChar_spec (dd / 10) (by omega)
    obtain ⟨hd2, hv2⟩ := digitChar_spec (dd % 10) (by omega)
    obtain ⟨hd3, hv3⟩ := digitChar_spec (hh / 10) (by omega)
    obtain ⟨hd4, hv4⟩ := digitChar_spec (hh % 10) (by omega)
    obtain ⟨hd5, hv5⟩ := digitChar_spec (mm / 10) (by omega)
    obtain ⟨hd6, hv6⟩ := digitChar_spec (mm % 10) (by omega)
    have hlist : (mkObsTime dd hh mm).toList =
        Char.ofNat (48 + dd / 10) :: Char.ofNat (48 + dd % 10) ::
        Char.ofNat (48 + hh / 10) :: Char.ofNat (48 + hh % 10) ::
        Char.ofNat (48 + mm / 10) :: Char.ofNat (48 + mm % 10) ::
        'Z' :: [] := by
      simp [mkObsTime, twoDigits, String.toList]
    have edd : 10 * (dd / 10) + dd % 10 = dd := by omega
    have ehh : 10 * (hh / 10) + hh % 10 = hh := by omega
    have emm : 10 * (mm / 10) + mm % 10 = mm := by omega
    rw [to_vn, hlist]
    simp only [List.all_cons, List.all_nil, hd1, hd2, hd3, hd4, hd5, hd6,
      Bool.and_self, Bool.and_true, if_true, hv1, hv2, hv3, hv4, hv5, hv6,
      edd, ehh, emm]
  · decide

/-- Witness for C10: the general projection rule applied at day 31,
18:00Z. -/
theorem C10_day_rollover_plain_increment_witness :
    to_vn (mkObsTime 31 18 0) =
      if 18 + 7 ≥ 24 then fmtVN (31 + 1) (18 + 7 - 24) 0
      else fmtVN 31 (18 + 7) 0 :=
  C10_day_rollover_plain_increment.1 31 18 0 (by decide) (by decide)
    (by decide)

/-- The two-rains-one-dry-runway record set at one shared timestamp,
ordered rain-before-runway. -/
def tieTimelineA : List TLEvent :=
  [TLEvent.rain 600 "小雨", TLEvent.rain 600 "中雨",
   TLEvent.runway 600 "跑道干"]

/-- The same three records in another time-sorted order, with the dry
runway record between the two rain records. -/
def tieTimelineB : List TLEvent :=
  [TLEvent.rain 600 "小雨", TLEvent.runway 600 "跑道干",
   TLEvent.rain 600 "中雨"]

/-- C3 (supporting theorem) — the two timelines hold the same records and
both are sorted by timestamp, yet the episode scan emits different
episode lists (one closed episode versus a closed plus an open one): the
output of `split_wet_runway_episodes` genuinely depends on how
equal-timestamp rain and runway records are ordered, so an implementation
whose merge does not fix the rain-before-runway tie-break does not
satisfy the claimed determinism-by-tie-break. -/
theorem C3_tie_order_changes_output :
    tieTimelineA.Perm tieTimelineB ∧
    tieTimelineA.Pairwise (fun a b => a.time ≤ b.time) ∧
    tieTimelineB.Pairwise (fun a b => a.time ≤ b.time) ∧
    splitFinish (tieTimelineA.foldl splitStep initState) ≠
      splitFinish (tieTimelineB.foldl splitStep initState) := by
  exact ⟨by decide, by decide, by decide, by decide⟩

end WeatherV4
